import Mathlib

/-
Verification of the RAI_GPT token-analysis service (src/app.py) against its
natural-language specification.

The embedding below translates the Python source into Lean:
* text is modelled as `List Char` (Python `str`);
* the regular-expression search `re.search(SOLANA_CA_PATTERN, q)` with
  `SOLANA_CA_PATTERN = r"\b[1-9A-HJ-NP-Za-km-z]{32,44}\b"` is modelled by
  `solanaSearch`, a left-to-right scanner derived from the NFA behaviour of
  that pattern (see the doc comments of `matchHere` and `searchAux`);
* JSON values that the code reads from provider payloads are modelled by
  `JVal`; Python's `int(...)` / `float(...)` conversions by `pyInt` /
  `pyFloat`, returning `Except PyErr _` so that an uncaught `ValueError`
  is visible as an `.error` result;
* the network calls (`requests.get` / `requests.post`) are modelled as
  oracles supplied in an `Env` record: each oracle gives the outcome of the
  corresponding HTTP call (network exception, or a status code plus payload);
* Python floats are modelled as exact rationals (ℚ); `round(x, 2)` is
  modelled by `roundTo2` built on Mathlib's `round` (the source uses
  round-half-to-even on doubles; the two differ only on exact half-cent
  ties, and every claim about rounding carries a 0.01 tolerance that
  absorbs this).
-/

/-- Text is modelled as a list of characters (Python `str`). -/
abbrev Str := List Char

/-- Characters of the base-58 alphabet used in `SOLANA_CA_PATTERN`,
i.e. the character class `[1-9A-HJ-NP-Za-km-z]` (src/app.py line 88). -/
def isBase58Char (c : Char) : Bool :=
  ('1' ≤ c && c ≤ '9') || ('A' ≤ c && c ≤ 'H') || ('J' ≤ c && c ≤ 'N') ||
  ('P' ≤ c && c ≤ 'Z') || ('a' ≤ c && c ≤ 'k') || ('m' ≤ c && c ≤ 'z')

/-- Word characters for the regex metacharacter `\b`.  Python's `re` treats
`[A-Za-z0-9_]` as word characters on ASCII text; the model is restricted to
ASCII (the claim theorems about the extractor carry an ASCII-text
hypothesis), where this definition coincides with Python's `\w`. -/
def isWordChar (c : Char) : Bool := c.isAlphanum || c == '_'

/-- Whitespace characters stripped by Python's `str.strip()` (the ASCII
core: space, tab, newline, carriage return, form feed, vertical tab). -/
def isPySpace (c : Char) : Bool :=
  c == ' ' || c == '\t' || c == '\n' || c == '\r' ||
  c == Char.ofNat 12 || c == Char.ofNat 11

/-- Python `str.strip()`: remove leading and trailing whitespace
(src/app.py line 212 `body.user_query.strip()` and line 203 `.strip()`). -/
def pyStrip (s : Str) : Str :=
  ((s.dropWhile isPySpace).reverse.dropWhile isPySpace).reverse

/-- Length of the longest base-58 prefix of a string: how far the greedy
character class `[1-9A-HJ-NP-Za-km-z]` can consume. -/
def runLen : Str → Nat
  | [] => 0
  | c :: cs => if isBase58Char c then runLen cs + 1 else 0

/-- Attempt of the pattern `[1-9A-HJ-NP-Za-km-z]{32,44}\b` at the current
position (the leading `\b` having already been checked by the caller).
Derived from the regex engine's behaviour: the greedy repetition consumes
the maximal base-58 run `L`; a shorter match `k < L` is impossible because
the character after it would be base-58, hence a word character, so the
trailing `\b` would fail; a match of length `L` succeeds exactly when
`32 ≤ L ≤ 44` and the following character (if any) is not a word
character.  Returns the length of the match. -/
def matchHere (rest : Str) : Option Nat :=
  let L := runLen rest
  if 32 ≤ L && L ≤ 44 then
    match rest.drop L with
    | [] => some L
    | c :: _ => if isWordChar c then none else some L
  else none

/-- The scan performed by `re.search`: try each start position from the
left; a start position is viable only when the preceding character is not a
word character (`prevWord = false`), which is what the leading `\b` demands
when the first matched character is base-58 (a word character); at the
start of the string `\b` behaves as if preceded by a non-word character. -/
def searchAux : Bool → Str → Option Str
  | _, [] => none
  | prevWord, c :: cs =>
    match (if prevWord then none else matchHere (c :: cs)) with
    | some L => some ((c :: cs).take L)
    | none => searchAux (isWordChar c) cs

/-- Model of `re.search(SOLANA_CA_PATTERN, text)` (src/app.py lines 88 and
213), returning the matched substring (`match.group(0)`) or `none`. -/
def solanaSearch (t : Str) : Option Str := searchAux false t

/-- Whether the character at index `i` of `t` exists and is a word
character. -/
def wordAt (t : Str) (i : Nat) : Bool :=
  match t.drop i with
  | [] => false
  | c :: _ => isWordChar c

/-- Start-boundary condition of a candidate match at index `i`, with
`pw` recording whether the character just before the current suffix is a
word character (used to state the scanning invariant of `searchAux`). -/
def startOk (pw : Bool) (t : Str) : Nat → Bool
  | 0 => !pw
  | j + 1 => !wordAt t j

/-- Generalised form of the declarative match predicate, parametrised by
the word-character status `pw` of the character preceding `t`. -/
def boundedRunAt (pw : Bool) (t : Str) (i k : Nat) : Bool :=
  decide (32 ≤ k) && decide (k ≤ 44) && decide (i + k ≤ t.length) &&
  ((t.drop i).take k).all isBase58Char &&
  startOk pw t i && !wordAt t (i + k)

/-- Declarative reading of the specification sentence: the `k`-character
substring of `t` starting at index `i` consists of base-58 characters,
has length between 32 and 44, and is bounded by word boundaries (no word
character immediately before or after it). -/
def base58RunBoundedAt (t : Str) (i k : Nat) : Bool :=
  decide (32 ≤ k) && decide (k ≤ 44) && decide (i + k ≤ t.length) &&
  ((t.drop i).take k).all isBase58Char &&
  (i == 0 || !wordAt t (i - 1)) && !wordAt t (i + k)

/-- Truncation toward zero, the behaviour of Python's `int()` applied to a
float. -/
def ratTrunc (q : ℚ) : ℤ := if 0 ≤ q then ⌊q⌋ else ⌈q⌉

/-- Python `round(x, 2)` (src/app.py line 175), modelled over exact
rationals: round `x * 100` to an integer and divide back.  Python rounds
half-to-even on doubles; Mathlib's `round` rounds half-up.  The two differ
only when `x * 100` is an exact half-integer, and in either convention the
result is within `1/200` of `x`, which is all any claim uses. -/
def roundTo2 (q : ℚ) : ℚ := ((round (q * 100) : ℤ) : ℚ) / 100

/-- The Python exceptions that the modelled code can raise and fail to
catch. -/
inductive PyErr
  | valueError
  deriving DecidableEq

/-- JSON scalar values as found in provider payloads: a number or a
string. -/
inductive JVal
  | num (q : ℚ)
  | str (s : Str)
  deriving DecidableEq

/-- Integer-literal parsing of Python `int(string)`: optional sign followed
by at least one digit (surrounding whitespace and underscore separators,
which Python also accepts, are omitted; the claims only exercise plainly
numeric and plainly non-numeric strings). -/
def pyIntOfStr (s : Str) : Option ℤ :=
  let core : Str → Option ℤ := fun ds =>
    if ds ≠ [] && ds.all Char.isDigit then
      some (ds.foldl (fun acc c => acc * 10 + ((c.toNat - 48 : Nat) : ℤ)) 0)
    else none
  match s with
  | '-' :: rest => (core rest).map (fun n => -n)
  | '+' :: rest => core rest
  | _ => core s

/-- Decimal parsing of Python `float(string)`: optional sign, digits with
an optional single decimal point (exponent and special forms omitted; the
claims only exercise plainly numeric and plainly non-numeric strings). -/
def pyFloatOfStr (s : Str) : Option ℚ :=
  let digits : Str → Option ℚ := fun ds =>
    if ds ≠ [] && ds.all Char.isDigit then
      some ((ds.foldl (fun acc c => acc * 10 + (c.toNat - 48 : Nat)) 0 : ℕ) : ℚ)
    else none
  let core : Str → Option ℚ := fun ds =>
    match ds.splitOn '.' with
    | [whole] => digits whole
    | [whole, frac] =>
      match digits (whole ++ frac), frac.length with
      | some v, fl => some (v / ((10 : ℚ) ^ fl))
      | none, _ => none
    | _ => none
  match s with
  | '-' :: rest => (core rest).map (fun q => -q)
  | '+' :: rest => core rest
  | _ => core s

/-- Python `int(v)` on a JSON value: numbers truncate toward zero, strings
must be integer literals, anything else raises `ValueError`. -/
def pyInt : JVal → Except PyErr ℤ
  | .num q => .ok (ratTrunc q)
  | .str s =>
    match pyIntOfStr s with
    | some n => .ok n
    | none => .error .valueError

/-- Python `float(v)` on a JSON value: strings must be decimal literals,
otherwise `ValueError`. -/
def pyFloat : JVal → Except PyErr ℚ
  | .num q => .ok q
  | .str s =>
    match pyFloatOfStr s with
    | some q => .ok q
    | none => .error .valueError

/-- Decimal rendering of an integer, via Lean's `toString`. -/
def intStr (n : ℤ) : Str := (toString n).toList

/-- Left-pad a natural number to two digits, as `%02d`. -/
def pad2 (n : ℕ) : Str := if n < 10 then '0' :: intStr n else intStr n

/-- Rendering of `f"{value:.2f}"`: the value rounded to two decimals,
printed with exactly two digits after the point. -/
def fmt2 (q : ℚ) : Str :=
  let c : ℤ := round (q * 100)
  let sign : Str := if c < 0 then ['-'] else []
  sign ++ intStr ((c.natAbs : ℤ) / 100) ++ '.' :: pad2 (c.natAbs % 100)

/-- Rendering of Python `str(value)` for the fall-through branch of
`format_number`.  The function receives an `int` (total supply) or a
`float` (market cap); integral values print as integers, and a
non-integral float is printed as `num/den` (an abstraction of CPython's
shortest-roundtrip float repr; no claim inspects this text). -/
def ratStr (q : ℚ) : Str :=
  if q.den = 1 then intStr q.num
  else intStr q.num ++ '/' :: intStr (q.den : ℤ)

/-- Model of `format_number` (src/app.py lines 90-100): formats numbers
into human-readable form (K, M, B, T). -/
def format_number (value : ℚ) : Str :=
  if value ≥ 1000000000000 then fmt2 (value / 1000000000000) ++ ['T']
  else if value ≥ 1000000000 then fmt2 (value / 1000000000) ++ ['B']
  else if value ≥ 1000000 then fmt2 (value / 1000000) ++ ['M']
  else if value ≥ 1000 then fmt2 (value / 1000) ++ ['K']
  else ratStr value

/-- The string `"Unknown"` used as the default for missing fields. -/
def unknownStr : Str := "Unknown".toList

/-- Civil date from days since the Unix epoch (proleptic Gregorian
calendar, the standard era-based conversion), used to model
`datetime.datetime.utcfromtimestamp(...).strftime("%Y-%m-%d %H:%M:%S")`. -/
def civilFromDays (z0 : ℤ) : ℤ × ℤ × ℤ :=
  let z := z0 + 719468
  let era := Int.fdiv z 146097
  let doe := z - era * 146097
  let yoe := (doe - doe / 1460 + doe / 36524 - doe / 146096) / 365
  let y := yoe + era * 400
  let doy := doe - (365 * yoe + yoe / 4 - yoe / 100)
  let mp := (5 * doy + 2) / 153
  let d := doy - (153 * mp + 2) / 5 + 1
  let m := mp + (if mp < 10 then 3 else -9)
  (y + (if m ≤ 2 then 1 else 0), m, d)

/-- Model of `format_timestamp` (src/app.py lines 102-107): convert a Unix
timestamp to `"%Y-%m-%d %H:%M:%S UTC"`; on any conversion error the bare
`except` returns `"Unknown"`.  Non-numeric input raises `TypeError`
(caught), and the model treats timestamps outside `[0, 253402300799]`
(before 1970 or after year 9999) as the error branch; within that range
the rendering matches CPython on a POSIX platform. -/
def format_timestamp (v : JVal) : Str :=
  match v with
  | .str _ => unknownStr
  | .num q =>
    let t : ℤ := ⌊q⌋
    if 0 ≤ t && t ≤ 253402300799 then
      let days := Int.fdiv t 86400
      let secs := (t - days * 86400).toNat
      match civilFromDays days with
      | (y, m, d) =>
        intStr y ++ '-' :: pad2 m.toNat ++ '-' :: pad2 d.toNat ++
        ' ' :: pad2 (secs / 3600) ++ ':' :: pad2 (secs % 3600 / 60) ++
        ':' :: pad2 (secs % 60) ++ " UTC".toList
    else unknownStr

/-- The `token_info` dictionary built by `get_token_info`
(src/app.py lines 126-139).  Fields the code passes through raw keep type
`JVal`; fields the code formats are `Str`. -/
structure TokenInfo where
  token_name : Str
  token_symbol : Str
  icon_url : Str
  total_supply : Str
  holders_count : JVal
  creator : JVal
  created_time : Str
  first_mint_tx : JVal
  market_cap : Str
  description : Str
  website : Str
  twitter : Str
  deriving DecidableEq

/-- The fields of the provider's `token/meta` response envelope `data`
that the code reads, each `none` when the key is absent.  The nested
`metadata` object is flattened into its three read keys. -/
structure MetaPayload where
  supply : Option JVal
  name : Option Str
  symbol : Option Str
  icon : Option Str
  holder : Option JVal
  creator : Option JVal
  created_time : Option JVal
  first_mint_tx : Option JVal
  market_cap : Option JVal
  description : Option Str
  website : Option Str
  twitter : Option Str
  deriving DecidableEq

/-- Outcome of the `requests.get` call for token metadata: a network-level
exception (`requests.RequestException`), or an HTTP response with a status
code and the JSON `data` envelope (`none` models both an absent and an
empty/falsy `data`). -/
inductive MetaOutcome
  | netError
  | httpResp (status : Nat) (data : Option MetaPayload)

/-- The dictionary literal of src/app.py lines 126-139, given the parsed
numeric fields. -/
def builtInfo (d : MetaPayload) (total_supply : ℤ) (market_cap : ℚ) : TokenInfo :=
  { token_name := d.name.getD unknownStr
    token_symbol := d.symbol.getD unknownStr
    icon_url := d.icon.getD []
    total_supply := format_number (total_supply : ℚ)
    holders_count := d.holder.getD (.num 0)
    creator := d.creator.getD (.str unknownStr)
    created_time := format_timestamp (d.created_time.getD (.num 0))
    first_mint_tx := d.first_mint_tx.getD (.str unknownStr)
    market_cap := format_number market_cap
    description := d.description.getD []
    website := d.website.getD []
    twitter := d.twitter.getD [] }

/-- Model of `get_token_info` (src/app.py lines 109-148).  The `try` block
catches only `requests.RequestException` (modelled by `.netError`), which
yields `(None, 0)`; a non-200 status or missing/empty `data` also yields
`(None, 0)`; but the `ValueError` that `int(...)` or `float(...)` raises
on a non-numeric field propagates out as an `Except.error`. -/
def get_token_info (m : MetaOutcome) : Except PyErr (Option TokenInfo × ℤ) :=
  match m with
  | .netError => .ok (none, 0)
  | .httpResp status data =>
    if status = 200 then
      match data with
      | some d =>
        match pyInt (d.supply.getD (.num 0)) with
        | .error e => .error e
        | .ok total_supply =>
          match pyFloat (d.market_cap.getD (.num 0)) with
          | .error e => .error e
          | .ok market_cap =>
            .ok (some (builtInfo d total_supply market_cap), total_supply)
      | none => .ok (none, 0)
    else .ok (none, 0)

/-- Outcome of the `requests.get` call for the transfer page: a network
exception, or an HTTP response with status code and the list of the
`amount` fields of the returned transfer records (the only field the code
reads; `data` absent or empty is the empty list). -/
inductive TransferOutcome
  | netError
  | httpResp (status : Nat) (amounts : List ℤ)

/-- Model of `get_supply_percentage` (src/app.py lines 150-179): on a
network exception, a non-200 status, or an empty `data` list it returns
`0`; otherwise it sums the transfer amounts and returns
`round((total_bought / total_supply) * 100 if total_supply > 0 else 0, 2)`. -/
def get_supply_percentage (t : TransferOutcome) (total_supply : ℤ) : ℚ :=
  match t with
  | .netError => 0
  | .httpResp status amounts =>
    if status ≠ 200 then 0
    else if amounts = [] then 0
    else
      let total_bought : ℤ := amounts.sum
      let supply_percentage : ℚ :=
        if 0 < total_supply then ((total_bought : ℚ) / (total_supply : ℚ)) * 100 else 0
      roundTo2 supply_percentage

/-- The ordered risk tiers named by the specification (Low, Guarded,
Elevated, High, Severe).  The source has no executable classifier; its
five prompt bands are put in correspondence with these five names in
band order. -/
inductive Tier
  | low
  | guarded
  | elevated
  | high
  | severe
  deriving DecidableEq

/-- The risk policy table embedded in the system prompt
`RAI_SYSTEM_MESSAGE` (src/app.py lines 43-60), transcribed from its text:
"less than 20%" / "20-30%" / "30-40%" / "40-60%" / "more than 60%".
The code contains no executable classifier — the classification is
delegated to the language model with this table as instructions — so this
function is the faithful reading of the only threshold policy present in
the source.  The prompt's wording makes 60 fall in the "40-60%" band
(the last band is strictly "more than 60%"); interior bounds shared by
two bands ("30" and "40") are resolved downward, which no claim
exercises. -/
def classifyCode (p : ℚ) : Tier :=
  if p < 20 then .low
  else if p ≤ 30 then .guarded
  else if p ≤ 40 then .elevated
  else if p ≤ 60 then .high
  else .severe

/-- The spec's threshold table (spec.md §4.4), for comparison with
`classifyCode`: values clamped to `[0, 100]`, bands `[0,10)` Low,
`[10,20)` Guarded, `[20,40)` Elevated, `[40,60)` High, `[60,100]`
Severe, lower bounds inclusive. -/
def classifySpec (p : ℚ) : Tier :=
  let c := max 0 (min 100 p)
  if c < 10 then .low
  else if c < 20 then .guarded
  else if c < 40 then .elevated
  else if c < 60 then .high
  else .severe

/-- Response body of the OpenAI chat-completions call: HTTP status plus
the extracted `choices[0].message.content` (`none` models a 200 payload
from which that path cannot be read, which raises inside the handler's
`try` and is caught by its bare `except Exception`). -/
structure OAIResp where
  status : Nat
  content : Option Str

/-- Outcome of the `requests.post` call to OpenAI: a network exception or
a response. -/
inductive OAIOutcome
  | netError
  | resp (r : OAIResp)

/-- The JSON value returned to the HTTP caller.  The source only ever
builds the `chat` shape `{"response": ...}`; the `analysis` constructor
transcribes the spec's token-analysis result shape (spec.md §6) so that
claims about the response shape can be stated, and is constructed by no
modelled source function. -/
inductive Response
  | chat (response : Str)
  | analysis (contract_address : Str) (token_info : TokenInfo)
      (concentration : Option ℚ) (tier : Tier) (rationale : Str)
  deriving DecidableEq

/-- Whether a response has the spec's structured token-analysis shape. -/
def Response.isAnalysis : Response → Bool
  | .chat _ => false
  | .analysis _ _ _ _ _ => true

/-- Fixed message of src/app.py line 219. -/
def errAnalyzeMsg : Str := "❌ Error analyzing token.".toList

/-- Fixed message of src/app.py line 200. -/
def openaiErrorMsg : Str := "❌ OpenAI error. Try again later.".toList

/-- Fixed message of src/app.py line 207. -/
def serverErrorMsg : Str := "❌ Server error. Try again later.".toList

/-- Model of `get_ai_response` (src/app.py lines 181-207): network errors
and payload-extraction errors are caught by the handler's own `except`
branches and turned into fixed error messages; a 200 response yields the
stripped message content.  Always produces the chat shape. -/
def get_ai_response (oai : Str → OAIOutcome) (user_query : Str) : Response :=
  match oai user_query with
  | .netError => .chat serverErrorMsg
  | .resp r =>
    if r.status ≠ 200 then .chat openaiErrorMsg
    else
      match r.content with
      | some c => .chat (pyStrip c)
      | none => .chat serverErrorMsg

/-- Single-quote character, written by code point to keep the source
robust. -/
def quoteChar : Char := Char.ofNat 39

/-- Python `repr` of a string as interpolated into an f-string for dict
values (quote-escaping of embedded quotes is omitted; no claim inspects
this text). -/
def pyQuote (s : Str) : Str := quoteChar :: s ++ [quoteChar]

/-- Python `repr` of a raw JSON value stored in the dict. -/
def jvalRepr : JVal → Str
  | .num q => ratStr q
  | .str s => pyQuote s

/-- One `'key': value` entry of the dict repr. -/
def dictEntry (key : Str) (val : Str) : Str := pyQuote key ++ ':' :: ' ' :: val

/-- Rendering of `f"{token_info}"` (src/app.py line 221): the Python dict
repr, keys in insertion order, string values quoted. -/
def tokenInfoRepr (ti : TokenInfo) : Str :=
  Char.ofNat 123 ::
    (List.intercalate (", ".toList)
      [dictEntry "token_name".toList (pyQuote ti.token_name),
       dictEntry "token_symbol".toList (pyQuote ti.token_symbol),
       dictEntry "icon_url".toList (pyQuote ti.icon_url),
       dictEntry "total_supply".toList (pyQuote ti.total_supply),
       dictEntry "holders_count".toList (jvalRepr ti.holders_count),
       dictEntry "creator".toList (jvalRepr ti.creator),
       dictEntry "created_time".toList (pyQuote ti.created_time),
       dictEntry "first_mint_tx".toList (jvalRepr ti.first_mint_tx),
       dictEntry "market_cap".toList (pyQuote ti.market_cap),
       dictEntry "description".toList (pyQuote ti.description),
       dictEntry "website".toList (pyQuote ti.website),
       dictEntry "twitter".toList (pyQuote ti.twitter)]) ++
    [Char.ofNat 125]

/-- The prompt `f"Analyze token: {token_info}"` of src/app.py line 221. -/
def analyzePrompt (ti : TokenInfo) : Str :=
  "Analyze token: ".toList ++ tokenInfoRepr ti

/-- The external collaborators of one request, as oracles keyed by the
text sent to them: `meta` is the Solscan `token/meta` call for a contract
address, `transfers` the Solscan `token/transfer` call (read only by
`get_supply_percentage`), `oai` the OpenAI call for a user/system prompt. -/
structure Env where
  meta : Str → MetaOutcome
  transfers : Str → TransferOutcome
  oai : Str → OAIOutcome

/-- Model of the `/analyze` handler `analyze_or_chat`
(src/app.py lines 209-223): strip the query, search for a contract
address; with no address, pass the query through to the AI; with an
address, fetch token metadata — `(None, _)` becomes the fixed error chat
response, a parse exception propagates (`.error`), and otherwise the AI
is asked to analyze the token-info dict.  `get_supply_percentage` is
never invoked. -/
def analyze_or_chat (env : Env) (user_query : Str) : Except PyErr Response :=
  match solanaSearch (pyStrip user_query) with
  | some ca =>
    match get_token_info (env.meta ca) with
    | .error e => .error e
    | .ok (none, _) => .ok (.chat errAnalyzeMsg)
    | .ok (some token_info, _) =>
      .ok (get_ai_response env.oai (analyzePrompt token_info))
  | none => .ok (get_ai_response env.oai (pyStrip user_query))

/-- Whether the metadata fetch failed, in the sense the source recognises
and recovers from: a network exception, a non-success HTTP status, or a
missing/empty `data` envelope (src/app.py lines 120-122 and 143-148). -/
def metaFetchFails : MetaOutcome → Bool
  | .netError => true
  | .httpResp s d => !(s == 200) || d.isNone

/-- A syntactically valid 32-character base-58 contract address used as a
concrete input by several witnesses. -/
def addr32 : Str := "11111111111111111111111111111111".toList

/-- A fully populated, well-formed provider metadata payload. -/
def payloadC6 : MetaPayload :=
  { supply := some (.num 1000000)
    name := some "TestCoin".toList
    symbol := some "TST".toList
    icon := some []
    holder := some (.num 12)
    creator := some (.str "creator".toList)
    created_time := some (.num 0)
    first_mint_tx := some (.str "tx0".toList)
    market_cap := some (.num 500)
    description := some []
    website := some []
    twitter := some [] }

/-- Environment in which the address is found, the metadata call succeeds
with well-formed data, and the AI collaborator answers `"hello"`. -/
def envC6 : Env :=
  { meta := fun _ => .httpResp 200 (some payloadC6)
    transfers := fun _ => .netError
    oai := fun _ => .resp ⟨200, some "hello".toList⟩ }

/-- A provider metadata payload whose `supply` field holds a non-numeric
string. -/
def payloadC7 : MetaPayload :=
  { supply := some (.str "abc".toList)
    name := none, symbol := none, icon := none, holder := none
    creator := none, created_time := none, first_mint_tx := none
    market_cap := none, description := none, website := none, twitter := none }

/-- A provider metadata payload with every field absent. -/
def payloadDefaults : MetaPayload :=
  { supply := none, name := none, symbol := none, icon := none, holder := none
    creator := none, created_time := none, first_mint_tx := none
    market_cap := none, description := none, website := none, twitter := none }

/-- Environment in which the metadata provider answers HTTP 500. -/
def envC8 : Env :=
  { meta := fun _ => .httpResp 500 none
    transfers := fun _ => .netError
    oai := fun _ => .netError }

theorem base58RunBoundedAt_eq_boundedRunAt (t : Str) (i k : Nat) :
    base58RunBoundedAt t i k = boundedRunAt false t i k := by
  cases i <;> rfl

theorem roundTo2_zero : roundTo2 0 = 0 := by
  simp [roundTo2]

theorem roundTo2_close (x : ℚ) : |roundTo2 x - x| ≤ 1 / 200 := by
  have h := abs_sub_round (x * 100)
  rw [abs_sub_comm] at h
  have heq : roundTo2 x - x = (((round (x * 100) : ℤ) : ℚ) - x * 100) / 100 := by
    unfold roundTo2; ring
  rw [heq, abs_div, show |(100 : ℚ)| = 100 by norm_num]
  linarith

theorem get_ai_response_isAnalysis (oai : Str → OAIOutcome) (q : Str) :
    (get_ai_response oai q).isAnalysis = false := by
  unfold get_ai_response
  cases hq : oai q with
  | netError => rfl
  | resp r =>
    dsimp only
    split
    · rfl
    · cases r.content <;> rfl

theorem get_token_info_fail (m : MetaOutcome) (hm : metaFetchFails m = true) :
    get_token_info m = .ok (none, 0) := by
  cases m with
  | netError => rfl
  | httpResp s d =>
    unfold metaFetchFails at hm
    by_cases hs : s = 200
    · subst hs
      simp only [beq_self_eq_true, Bool.not_true, Bool.false_or] at hm
      cases d with
      | none => rfl
      | some p => simp [Option.isNone] at hm
    · simp [get_token_info, hs]

/-- C1 (confirmed): for every sequence of transfers with non-negative
integer amounts and every totalSupply > 0, `get_supply_percentage` on a
successful transfer fetch returns `100 × sum(amounts) / totalSupply`
rounded to two decimal places, hence within a rounding tolerance of 0.01
of the exact value. -/
theorem supply_percentage_formula (amounts : List ℤ) (ts : ℤ)
    (hnn : ∀ a ∈ amounts, 0 ≤ a) (hts : 0 < ts) :
    get_supply_percentage (.httpResp 200 amounts) ts
        = roundTo2 (100 * (amounts.sum : ℚ) / (ts : ℚ)) ∧
    |get_supply_percentage (.httpResp 200 amounts) ts
        - 100 * (amounts.sum : ℚ) / (ts : ℚ)| ≤ 1 / 100 := by
  have key : get_supply_percentage (.httpResp 200 amounts) ts
      = roundTo2 (100 * (amounts.sum : ℚ) / (ts : ℚ)) := by
    rcases eq_or_ne amounts [] with he | he
    · subst he
      simp [get_supply_percentage, roundTo2]
    · simp [get_supply_percentage, he, hts]
      congr 1
      ring
  refine ⟨key, ?_⟩
  rw [key]
  exact le_trans (roundTo2_close _) (by norm_num)

/-- Witness for C1 at amounts `[100, 50, 50]`, totalSupply `1000`. -/
theorem supply_percentage_formula_witness :
    (∀ a ∈ ([100, 50, 50] : List ℤ), 0 ≤ a) ∧ (0 : ℤ) < 1000 ∧
    (get_supply_percentage (.httpResp 200 [100, 50, 50]) 1000
        = roundTo2 (100 * (([100, 50, 50] : List ℤ).sum : ℚ) / ((1000 : ℤ) : ℚ)) ∧
     |get_supply_percentage (.httpResp 200 [100, 50, 50]) 1000
        - 100 * (([100, 50, 50] : List ℤ).sum : ℚ) / ((1000 : ℤ) : ℚ)| ≤ 1 / 100) :=
  ⟨by decide, by decide,
    supply_percentage_formula [100, 50, 50] 1000 (by decide) (by decide)⟩

/-- C2 counterexample: the only threshold policy in the source — the band
table of `RAI_SYSTEM_MESSAGE` transcribed as `classifyCode` — does not
classify 10.00 as Guarded, nor 60.00 as Severe. -/
theorem classify_boundaries_counterexample :
    classifyCode 10 ≠ Tier.guarded ∧ classifyCode 60 ≠ Tier.severe := by
  have h10 : classifyCode 10 = Tier.low := by unfold classifyCode; norm_num
  have h60 : classifyCode 60 = Tier.high := by unfold classifyCode; norm_num
  rw [h10, h60]
  exact ⟨by decide, by decide⟩

/-- C2 (corrected): the code's band table (`<20`, `20-30`, `30-40`,
`40-60`, `>60`) has no boundary at 10 — exactly 10.00 falls in the lowest
band — and exactly 60.00 falls in the `40-60` band, not the most severe
one; the spec's own table `classifySpec` is the one that sends 10.00 to
Guarded and 60.00 to Severe. -/
theorem classify_code_boundaries :
    classifyCode 10 = Tier.low ∧ classifyCode 60 = Tier.high ∧
    classifySpec 10 = Tier.guarded ∧ classifySpec 60 = Tier.severe := by
  refine ⟨?_, ?_, ?_, ?_⟩ <;>
  · first
    | (unfold classifyCode; norm_num)
    | (unfold classifySpec; norm_num)

/-- C3 counterexample: an empty transfer list makes `get_supply_percentage`
return plain `0` — the very same value a genuine zero-concentration report
produces — so the caller cannot distinguish the two. -/
theorem empty_transfers_indistinguishable :
    get_supply_percentage (.httpResp 200 []) 1000 = 0 ∧
    get_supply_percentage (.httpResp 200 []) 1000
      = get_supply_percentage (.httpResp 200 [0]) 1000 := by
  constructor
  · rfl
  · simp [get_supply_percentage, roundTo2]

/-- C3 (corrected): when the transfer fetch yields an empty transfer list
the computation returns `0`, not a distinct InsufficientData result; the
return type carries no marker, so a zero-percentage report and the no-data
case are the same value. -/
theorem empty_transfers_zero (status : Nat) (ts : ℤ) :
    get_supply_percentage (.httpResp status []) ts = 0 := by
  by_cases h : status = 200 <;> simp [get_supply_percentage, h]

/-- C4 (confirmed): for every transfer-fetch outcome, totalSupply = 0
yields supply percentage 0 — the `if total_supply > 0` guard, never a
division-by-zero error — and 0 falls in the lowest band of both the
code's prompt table and the spec's table. -/
theorem zero_supply_zero_percent_low (t : TransferOutcome) :
    get_supply_percentage t 0 = 0 ∧
    classifyCode (get_supply_percentage t 0) = Tier.low ∧
    classifySpec (get_supply_percentage t 0) = Tier.low := by
  have h0 : get_supply_percentage t 0 = 0 := by
    cases t with
    | netError => rfl
    | httpResp status amounts =>
      by_cases hs : status = 200
      · rcases eq_or_ne amounts [] with he | he
        · simp [get_supply_percentage, hs, he]
        · simp [get_supply_percentage, hs, he, roundTo2]
      · simp [get_supply_percentage, hs]
  refine ⟨h0, ?_, ?_⟩ <;> rw [h0]
  · unfold classifyCode; norm_num
  · unfold classifySpec; norm_num

/-- C5 (confirmed): the `/analyze` handler never invokes the
supply-percentage computation: `analyze_or_chat` does not call
`get_supply_percentage`, so its result is independent of the transfer
oracle — two environments that differ arbitrarily in the transfer fetch
produce identical responses for every query. -/
theorem handler_ignores_transfer_fetch (m : Str → MetaOutcome)
    (t₁ t₂ : Str → TransferOutcome) (oai : Str → OAIOutcome) (q : Str) :
    analyze_or_chat ⟨m, t₁, oai⟩ q = analyze_or_chat ⟨m, t₂, oai⟩ q := rfl

/-- C6 counterexample: in a request whose query contains an address and
whose metadata fetch succeeds with well-formed token data, the handler
returns the chat shape `{"response": ...}` (the AI collaborator's reply),
not the structured token-analysis shape. -/
theorem analysis_shape_counterexample :
    analyze_or_chat envC6 addr32 = .ok (Response.chat "hello".toList) ∧
    Response.isAnalysis (Response.chat "hello".toList) = false := ⟨rfl, rfl⟩

/-- C6 (corrected): every response the handler successfully returns is the
chat shape; the structured token-analysis shape of the spec is never
produced, not even when an address is found and token data is available
(in that case the handler forwards `f"Analyze token: {token_info}"` to the
AI collaborator and returns its chat-shaped reply). -/
theorem handler_always_chat_shape (env : Env) (q : Str) (r : Response)
    (h : analyze_or_chat env q = .ok r) : r.isAnalysis = false := by
  unfold analyze_or_chat at h
  rcases hs : solanaSearch (pyStrip q) with _ | ca
  · rw [hs] at h
    simp only [Except.ok.injEq] at h
    rw [← h]
    exact get_ai_response_isAnalysis env.oai (pyStrip q)
  · rw [hs] at h
    dsimp only at h
    rcases ht : get_token_info (env.meta ca) with e | ⟨ti, ts⟩
    · rw [ht] at h
      simp at h
    · rcases ti with _ | info
      · rw [ht] at h
        simp only [Except.ok.injEq] at h
        rw [← h]; rfl
      · rw [ht] at h
        simp only [Except.ok.injEq] at h
        rw [← h]
        exact get_ai_response_isAnalysis env.oai (analyzePrompt info)

/-- Witness for C6's amended claim at a concrete environment and query. -/
theorem handler_always_chat_shape_witness :
    Response.isAnalysis (Response.chat "hello".toList) = false :=
  handler_always_chat_shape envC6 addr32 (Response.chat "hello".toList) rfl

/-- C7 counterexample: a provider payload whose `supply` field is the
non-numeric string `"abc"` makes the metadata fetch raise an uncaught
`ValueError` — `int(data.get("supply", 0))` is outside the protection of
the `except requests.RequestException` clause. -/
theorem nonnumeric_supply_raises :
    get_token_info (.httpResp 200 (some payloadC7)) = .error PyErr.valueError := rfl

/-- C7 (corrected): missing numeric fields are parsed defensively —
`data.get(..., 0)` defaults them to 0 and the fetch returns normally, and
network/HTTP failures return `(None, 0)` — but a non-numeric string in
`supply` or `market_cap` raises an uncaught `ValueError` rather than
becoming the unknown sentinel. -/
theorem metadata_defensive_parsing (p : MetaPayload)
    (h1 : p.supply = none) (h2 : p.market_cap = none) :
    get_token_info (.httpResp 200 (some p)) = .ok (some (builtInfo p 0 0), 0) ∧
    get_token_info .netError = .ok (none, 0) ∧
    get_token_info (.httpResp 500 none) = .ok (none, 0) := by
  refine ⟨?_, rfl, rfl⟩
  have htr : ratTrunc 0 = 0 := by simp [ratTrunc]
  simp [get_token_info, h1, h2, pyInt, pyFloat, htr]

/-- Witness for C7's amended claim at the all-fields-absent payload. -/
theorem metadata_defensive_parsing_witness :
    get_token_info (.httpResp 200 (some payloadDefaults))
        = .ok (some (builtInfo payloadDefaults 0 0), 0) ∧
    get_token_info .netError = .ok (none, 0) ∧
    get_token_info (.httpResp 500 none) = .ok (none, 0) :=
  metadata_defensive_parsing payloadDefaults rfl rfl

/-- C8 (confirmed): when the metadata fetch fails in any way the source
recognises (network exception, non-success HTTP status such as 500, or an
empty payload), the handler returns the well-formed degraded chat response
`"❌ Error analyzing token."` — an `Except.ok`, so no unhandled exception
escapes — and that response carries no risk tier (it is not the analysis
shape). -/
theorem metadata_failure_degraded (env : Env) (q ca : Str)
    (hca : solanaSearch (pyStrip q) = some ca)
    (hm : metaFetchFails (env.meta ca) = true) :
    analyze_or_chat env q = .ok (Response.chat errAnalyzeMsg) ∧
    Response.isAnalysis (Response.chat errAnalyzeMsg) = false := by
  refine ⟨?_, rfl⟩
  unfold analyze_or_chat
  rw [hca]
  dsimp only
  rw [get_token_info_fail (env.meta ca) hm]

/-- Witness for C8: provider answers HTTP 500 for a query holding an
address. -/
theorem metadata_failure_degraded_witness :
    analyze_or_chat envC8 addr32 = .ok (Response.chat errAnalyzeMsg) ∧
    Response.isAnalysis (Response.chat errAnalyzeMsg) = false :=
  metadata_failure_degraded envC8 addr32 addr32 rfl rfl

/-- C10 (confirmed): a query with no address-shaped substring bypasses the
market-data client entirely — the response equals the AI passthrough of
the (whitespace-stripped) query, is unchanged under arbitrary changes of
both the metadata and the transfer oracles, and has the chat shape. -/
theorem no_address_bypasses_market_data (m₁ m₂ : Str → MetaOutcome)
    (t₁ t₂ : Str → TransferOutcome) (oai : Str → OAIOutcome) (q : Str)
    (h : solanaSearch (pyStrip q) = none) :
    analyze_or_chat ⟨m₁, t₁, oai⟩ q = .ok (get_ai_response oai (pyStrip q)) ∧
    analyze_or_chat ⟨m₁, t₁, oai⟩ q = analyze_or_chat ⟨m₂, t₂, oai⟩ q ∧
    (get_ai_response oai (pyStrip q)).isAnalysis = false := by
  have e1 : analyze_or_chat ⟨m₁, t₁, oai⟩ q = .ok (get_ai_response oai (pyStrip q)) := by
    unfold analyze_or_chat
    rw [h]
  have e2 : analyze_or_chat ⟨m₂, t₂, oai⟩ q = .ok (get_ai_response oai (pyStrip q)) := by
    unfold analyze_or_chat
    rw [h]
  exact ⟨e1, e1.trans e2.symm, get_ai_response_isAnalysis oai (pyStrip q)⟩

/-- Witness for C10 at the address-free query `"hello"`. -/
theorem no_address_bypasses_market_data_witness :
    analyze_or_chat ⟨fun _ => .netError, fun _ => .netError, fun _ => .netError⟩
        "hello".toList
      = .ok (get_ai_response (fun _ => .netError) (pyStrip "hello".toList)) ∧
    analyze_or_chat ⟨fun _ => .netError, fun _ => .netError, fun _ => .netError⟩
        "hello".toList
      = analyze_or_chat
          ⟨fun _ => .httpResp 200 none, fun _ => .httpResp 200 [], fun _ => .netError⟩
          "hello".toList ∧
    (get_ai_response (fun _ => .netError) (pyStrip "hello".toList)).isAnalysis
      = false :=
  no_address_bypasses_market_data _ _ _ _ _ "hello".toList rfl

theorem base58_isWord (c : Char) (h : isBase58Char c = true) : isWordChar c = true := by
  unfold isBase58Char at h
  simp only [Bool.or_eq_true, Bool.and_eq_true, decide_eq_true_eq] at h
  simp only [isWordChar, Char.isAlphanum, Char.isAlpha, Char.isUpper, Char.isLower,
    Char.isDigit, Bool.or_eq_true, Bool.and_eq_true, decide_eq_true_eq, ge_iff_le,
    beq_iff_eq]
  rcases h with ((((h | h) | h) | h) | h) | h
  · have h1 : (49 : ℕ) ≤ c.val.toNat := h.1
    have h2 : c.val.toNat ≤ (57 : ℕ) := h.2
    exact Or.inl (Or.inr
      ⟨(by omega : (48 : ℕ) ≤ c.val.toNat), (by omega : c.val.toNat ≤ (57 : ℕ))⟩)
  · have h1 : (65 : ℕ) ≤ c.val.toNat := h.1
    have h2 : c.val.toNat ≤ (72 : ℕ) := h.2
    exact Or.inl (Or.inl (Or.inl
      ⟨(by omega : (65 : ℕ) ≤ c.val.toNat), (by omega : c.val.toNat ≤ (90 : ℕ))⟩))
  · have h1 : (74 : ℕ) ≤ c.val.toNat := h.1
    have h2 : c.val.toNat ≤ (78 : ℕ) := h.2
    exact Or.inl (Or.inl (Or.inl
      ⟨(by omega : (65 : ℕ) ≤ c.val.toNat), (by omega : c.val.toNat ≤ (90 : ℕ))⟩))
  · have h1 : (80 : ℕ) ≤ c.val.toNat := h.1
    have h2 : c.val.toNat ≤ (90 : ℕ) := h.2
    exact Or.inl (Or.inl (Or.inl
      ⟨(by omega : (65 : ℕ) ≤ c.val.toNat), (by omega : c.val.toNat ≤ (90 : ℕ))⟩))
  · have h1 : (97 : ℕ) ≤ c.val.toNat := h.1
    have h2 : c.val.toNat ≤ (107 : ℕ) := h.2
    exact Or.inl (Or.inl (Or.inr
      ⟨(by omega : (97 : ℕ) ≤ c.val.toNat), (by omega : c.val.toNat ≤ (122 : ℕ))⟩))
  · have h1 : (109 : ℕ) ≤ c.val.toNat := h.1
    have h2 : c.val.toNat ≤ (122 : ℕ) := h.2
    exact Or.inl (Or.inl (Or.inr
      ⟨(by omega : (97 : ℕ) ≤ c.val.toNat), (by omega : c.val.toNat ≤ (122 : ℕ))⟩))

theorem runLen_le_length (t : Str) : runLen t ≤ t.length := by
  induction t with
  | nil => simp [runLen]
  | cons c cs ih =>
    simp only [runLen, List.length_cons]
    split <;> omega

theorem take_runLen_all (t : Str) : (t.take (runLen t)).all isBase58Char = true := by
  induction t with
  | nil => rfl
  | cons c cs ih =>
    by_cases h : isBase58Char c
    · simp [runLen, h, ih]
    · simp [runLen, h]

theorem drop_runLen_not_base58 (t : Str) (c : Char) (cs : Str)
    (h : t.drop (runLen t) = c :: cs) : isBase58Char c = false := by
  induction t with
  | nil => simp [runLen] at h
  | cons c0 cs0 ih =>
    by_cases hb : isBase58Char c0
    · simp only [runLen, hb, if_pos, List.drop_succ_cons] at h
      exact ih h
    · simp only [runLen, hb, if_neg, Bool.false_eq_true, List.drop_zero] at h
      obtain ⟨rfl, -⟩ := List.cons.injEq c0 cs0 c cs ▸ h
      exact Bool.eq_false_iff.mpr hb

theorem runLen_eq_of (t : Str) (k : Nat) (hk : k ≤ t.length)
    (hall : (t.take k).all isBase58Char = true)
    (hend : ∀ c cs, t.drop k = c :: cs → isBase58Char c = false) :
    runLen t = k := by
  induction t generalizing k with
  | nil =>
    simp only [List.length_nil, Nat.le_zero] at hk
    simp [runLen, hk]
  | cons c0 cs0 ih =>
    cases k with
    | zero =>
      have h0 := hend c0 cs0 (by simp)
      simp [runLen, h0]
    | succ k0 =>
      simp only [List.take_succ_cons, List.all_cons, Bool.and_eq_true] at hall
      have hr : runLen cs0 = k0 :=
        ih k0 (by simpa using hk) hall.2
          (fun c cs h => hend c cs (by simpa using h))
      simp [runLen, hall.1, hr]

theorem boundedRunAt_true_iff (pw : Bool) (t : Str) (i k : Nat) :
    boundedRunAt pw t i k = true ↔
      (32 ≤ k ∧ k ≤ 44 ∧ i + k ≤ t.length ∧
       ((t.drop i).take k).all isBase58Char = true ∧
       startOk pw t i = true ∧ wordAt t (i + k) = false) := by
  unfold boundedRunAt
  simp [Bool.and_eq_true, and_assoc, Bool.not_eq_true']

theorem matchHere_eq_some_iff (t : Str) (k : Nat) :
    matchHere t = some k ↔ boundedRunAt false t 0 k = true := by
  constructor
  · intro h
    unfold matchHere at h
    by_cases hg : (32 ≤ runLen t && runLen t ≤ 44) = true
    · rw [if_pos hg] at h
      simp only [Bool.and_eq_true, decide_eq_true_eq] at hg
      have hk : k = runLen t := by
        rcases hd : t.drop (runLen t) with _ | ⟨c, cs⟩ <;> rw [hd] at h <;>
          dsimp only at h
        · exact (Option.some.inj h).symm
        · by_cases hw : isWordChar c
          · rw [if_pos hw] at h
            exact absurd h (by simp)
          · rw [if_neg hw] at h
            exact (Option.some.inj h).symm
      have hwa : wordAt t (runLen t) = false := by
        rcases hd : t.drop (runLen t) with _ | ⟨c, cs⟩
        · simp [wordAt, hd]
        · rw [hd] at h
          dsimp only at h
          by_cases hw : isWordChar c
          · rw [if_pos hw] at h
            exact absurd h (by simp)
          · simp [wordAt, hd, hw]
      subst hk
      rw [boundedRunAt_true_iff]
      refine ⟨hg.1, hg.2, ?_, ?_, rfl, ?_⟩
      · simpa using runLen_le_length t
      · simpa using take_runLen_all t
      · simpa using hwa
    · rw [if_neg hg] at h
      exact absurd h (by simp)
  · intro h
    rw [boundedRunAt_true_iff] at h
    obtain ⟨h32, h44, hlen, hall, -, hw⟩ := h
    rw [Nat.zero_add] at hw
    have hrk : runLen t = k := by
      refine runLen_eq_of t k (by simpa using hlen) (by simpa using hall) ?_
      intro c cs hd
      by_contra hb
      have hb2 : isBase58Char c = true := by
        cases hx : isBase58Char c
        · exact absurd hx hb
        · rfl
      have hwc := base58_isWord c hb2
      unfold wordAt at hw
      rw [hd] at hw
      dsimp only at hw
      rw [hwc] at hw
      exact absurd hw (by simp)
    unfold matchHere
    rw [hrk, if_pos (by simp [h32, h44])]
    rcases hd : t.drop k with _ | ⟨c, cs⟩
    · rfl
    · unfold wordAt at hw
      rw [hd] at hw
      dsimp only at hw
      simp [hw]

theorem boundedRunAt_true_zero (t : Str) (k : Nat) :
    boundedRunAt true t 0 k = false := by
  simp [boundedRunAt, startOk]

theorem boundedRunAt_cons (pw : Bool) (c : Char) (cs : Str) (i k : Nat) :
    boundedRunAt pw (c :: cs) (i + 1) k = boundedRunAt (isWordChar c) cs i k := by
  have e1 : decide (i + 1 + k ≤ (c :: cs).length) = decide (i + k ≤ cs.length) := by
    simp only [List.length_cons]
    exact decide_eq_decide.mpr (by omega)
  have e3 : startOk pw (c :: cs) (i + 1) = startOk (isWordChar c) cs i := by
    cases i <;> rfl
  have e4 : wordAt (c :: cs) (i + 1 + k) = wordAt cs (i + k) := by
    rw [show i + 1 + k = (i + k) + 1 by omega]
    rfl
  unfold boundedRunAt
  rw [e1, e3, e4]
  rfl

theorem searchAux_eq_none (t : Str) :
    ∀ pw, (∀ i k, boundedRunAt pw t i k = false) → searchAux pw t = none := by
  induction t with
  | nil => intro pw _; rfl
  | cons c cs ih =>
    intro pw h
    have h0 : (if pw then none else matchHere (c :: cs)) = none := by
      cases hpw : pw
      · simp only [Bool.false_eq_true, if_false]
        cases hm : matchHere (c :: cs) with
        | none => rfl
        | some L =>
          exfalso
          have htrue := (matchHere_eq_some_iff (c :: cs) L).mp hm
          have hfalse := h 0 L
          rw [hpw] at hfalse
          rw [htrue] at hfalse
          exact absurd hfalse (by simp)
      · simp
    simp only [searchAux]
    rw [h0]
    exact ih (isWordChar c)
      (fun i k => by rw [← boundedRunAt_cons pw c cs i k]; exact h (i + 1) k)

theorem searchAux_eq_some (t : Str) :
    ∀ pw i k, boundedRunAt pw t i k = true →
      (∀ j l, boundedRunAt pw t j l = true → i ≤ j) →
      searchAux pw t = some ((t.drop i).take k) := by
  induction t with
  | nil =>
    intro pw i k h _
    rw [boundedRunAt_true_iff] at h
    obtain ⟨h32, -, hlen, -⟩ := h
    simp only [List.length_nil] at hlen
    omega
  | cons c cs ih =>
    intro pw i k h hmin
    cases hpw : pw
    · subst hpw
      cases hm : matchHere (c :: cs) with
      | some L =>
        have h0 : boundedRunAt false (c :: cs) 0 L = true :=
          (matchHere_eq_some_iff _ L).mp hm
        have hi0 : i = 0 := Nat.le_zero.mp (hmin 0 L h0)
        subst hi0
        have hkL : k = L := by
          have hsome : matchHere (c :: cs) = some k := (matchHere_eq_some_iff _ k).mpr h
          rw [hm] at hsome
          exact (Option.some.inj hsome).symm
        subst hkL
        simp only [searchAux, Bool.false_eq_true, if_false]
        rw [hm]
        rfl
      | none =>
        cases i with
        | zero =>
          exfalso
          have := (matchHere_eq_some_iff (c :: cs) k).mpr h
          rw [hm] at this
          exact absurd this (by simp)
        | succ j =>
          have h2 : boundedRunAt (isWordChar c) cs j k = true := by
            rw [← boundedRunAt_cons false c cs j k]
            exact h
          have hmin2 : ∀ j2 l, boundedRunAt (isWordChar c) cs j2 l = true → j ≤ j2 := by
            intro j2 l hl
            have := hmin (j2 + 1) l (by rw [boundedRunAt_cons]; exact hl)
            omega
          have hres := ih (isWordChar c) j k h2 hmin2
          simp only [searchAux, Bool.false_eq_true, if_false]
          rw [hm]
          exact hres
    · subst hpw
      cases i with
      | zero =>
        rw [boundedRunAt_true_zero] at h
        exact absurd h (by simp)
      | succ j =>
        have h2 : boundedRunAt (isWordChar c) cs j k = true := by
          rw [← boundedRunAt_cons true c cs j k]
          exact h
        have hmin2 : ∀ j2 l, boundedRunAt (isWordChar c) cs j2 l = true → j ≤ j2 := by
          intro j2 l hl
          have := hmin (j2 + 1) l (by rw [boundedRunAt_cons]; exact hl)
          omega
        have hres := ih (isWordChar c) j k h2 hmin2
        simp only [searchAux, if_true]
        exact hres

theorem base58RunBoundedAt_short (t : Str) (h : t.length < 32) (i k : Nat) :
    base58RunBoundedAt t i k = false := by
  cases hx : base58RunBoundedAt t i k
  · rfl
  · exfalso
    rw [base58RunBoundedAt_eq_boundedRunAt, boundedRunAt_true_iff] at hx
    obtain ⟨h32, -, hlen, -⟩ := hx
    omega

/-- C9 (confirmed): on ASCII text (where the model's word-character class
coincides with the regex engine's `\w`), the address extractor
`solanaSearch` returns exactly the first 32-44 character base-58 substring
bounded by word boundaries when one exists (first = least start index; the
matched length at a given start is unique, since the run must be maximal),
and returns `none` — the normal no-address branch, not an error — when the
text contains no such substring. -/
theorem extractor_first_bounded_match (t : Str)
    (_hA : t.all (fun c => decide (c.toNat < 128)) = true) :
    ((∀ i k, base58RunBoundedAt t i k = false) → solanaSearch t = none) ∧
    (∀ i k, base58RunBoundedAt t i k = true →
      (∀ j l, base58RunBoundedAt t j l = true → i ≤ j) →
      solanaSearch t = some ((t.drop i).take k)) := by
  constructor
  · intro h
    exact searchAux_eq_none t false
      (fun i k => by rw [← base58RunBoundedAt_eq_boundedRunAt]; exact h i k)
  · intro i k h hmin
    exact searchAux_eq_some t false i k
      (by rwa [← base58RunBoundedAt_eq_boundedRunAt])
      (fun j l hl => hmin j l (by rwa [base58RunBoundedAt_eq_boundedRunAt]))

/-- Witness for C9: a leading 32-character address followed by text is
extracted; an address-free text yields the no-address branch. -/
theorem extractor_first_bounded_match_witness :
    solanaSearch (addr32 ++ " ok".toList) = some addr32 ∧
    solanaSearch "hello world".toList = none := by
  constructor
  · have h := (extractor_first_bounded_match (addr32 ++ " ok".toList) (by decide)).2
      0 32 (by decide) (fun j l _ => Nat.zero_le j)
    rw [h]
    decide
  · exact (extractor_first_bounded_match "hello world".toList (by decide)).1
      (fun i k => base58RunBoundedAt_short "hello world".toList (by decide) i k)
